import Mathlib

/-!
Verification development for the billsnipe plan cost estimation, ranking and
prediction pipeline (web API routes `plan/compare` and the usage-prediction
endpoint).  Numbers are modelled as rationals.  JavaScript `NaN`, where it can
arise (the degenerate linear-regression slope and values it propagates into),
is modelled as `none` in `Option ℚ`; JavaScript `undefined`/absent numeric
fields are likewise `none`, and the truthiness test of `x || d` treats both
`none` and `0` as falsy, exactly as JavaScript does for numbers.
-/

namespace BillSnipe

/-- JavaScript `x || d` for an optional numeric field: `undefined`, `null`
and `0` are falsy and select the default. -/
def jsOrQ (o : Option ℚ) (d : ℚ) : ℚ :=
  match o with
  | none => d
  | some x => if x = 0 then d else x

/-- JavaScript `x || y` where the fallback may itself be absent/NaN. -/
def jsOrO (o : Option ℚ) (d : Option ℚ) : Option ℚ :=
  match o with
  | none => d
  | some x => if x = 0 then d else some x

/-- JavaScript `Math.round(x * 100) / 100`: round half towards positive
infinity to two decimals (`Math.round(z) = ⌊z + 1/2⌋`). -/
def jsRound2 (x : ℚ) : ℚ :=
  ((⌊x * 100 + 1 / 2⌋ : ℤ) : ℚ) / 100

/-- One hourly usage reading (`UsageHour` row).  `t` counts hours since the
epoch: `timestamp.getHours()` is `t % 24`, the calendar date
(`toISOString().split('T')[0]`) is `t / 24`, and `timestamp.getDay()` is
`(t / 24) % 7`. -/
structure UsageHour where
  t : ℕ
  kWh : ℚ
deriving DecidableEq

/-- The calendar-date component of a reading. -/
def dayOf (u : UsageHour) : ℕ := u.t / 24

/-- The hour-of-day component of a reading. -/
def hourOf (u : UsageHour) : ℕ := u.t % 24

/-- One entry of a tiered plan schema: `{ limit?: number, rate: number }`.
`limit = none` models an absent (`undefined`) limit. -/
structure Tier where
  limit : Option ℚ
  rate : ℚ
deriving DecidableEq

/-- The `periods` object of a time-of-use plan schema. -/
structure TOUPeriods where
  offPeak : Option ℚ
  midPeak : Option ℚ
  onPeak : Option ℚ
deriving DecidableEq

/-- The dynamic `plan.schema` JSON blob, restricted to the fields the route
reads: the `type` discriminator string, `baseRate`, `tiers`, `periods`,
`greenEnergy` and `rewards`. -/
structure PlanSchema where
  ptype : String
  baseRate : Option ℚ
  tiers : List Tier
  periods : TOUPeriods
  greenEnergy : Bool
  rewards : Bool
deriving DecidableEq

/-- `usageData.reduce((sum, u) => sum + u.kWh, 0)`. -/
def totalKwh (usageData : List UsageHour) : ℚ :=
  usageData.foldl (fun sum u => sum + u.kWh) 0

/-- The loop body of `calculateTieredCost`: for each tier,
`tierKwh = Math.min(remainingKwh, tier.limit || Infinity)`,
`cost += tierKwh * tier.rate`, `remainingKwh -= tierKwh`, breaking once
`remainingKwh <= 0`.  An absent limit or a limit of `0` is falsy in
JavaScript, so `tier.limit || Infinity` makes such a tier unbounded and
`Math.min(remainingKwh, Infinity) = remainingKwh`. -/
def tieredLoop : List Tier → ℚ → ℚ → ℚ
  | [], _, cost => cost
  | tier :: rest, remainingKwh, cost =>
    let tierKwh :=
      match tier.limit with
      | none => remainingKwh
      | some l => if l = 0 then remainingKwh else min remainingKwh l
    if remainingKwh - tierKwh ≤ 0 then cost + tierKwh * tier.rate
    else tieredLoop rest (remainingKwh - tierKwh) (cost + tierKwh * tier.rate)

/-- `calculateTieredCost(totalKwh, tiers)` from `plan/compare/route.ts`. -/
def calculateTieredCost (total : ℚ) (tiers : List Tier) : ℚ :=
  tieredLoop tiers total 0

/-- `calculateTOUCost(usageData, periods)` from `plan/compare/route.ts`:
per-reading rate chosen by `timestamp.getHours()`, starting from
`periods.offPeak || 0.08` and overridden on the 7–11 / 11–17 / 17–19 bands. -/
def calculateTOUCost (usageData : List UsageHour) (periods : TOUPeriods) : ℚ :=
  usageData.foldl
    (fun cost usage =>
      cost + usage.kWh *
        (if 7 ≤ usage.t % 24 ∧ usage.t % 24 < 11 then jsOrQ periods.onPeak (18 / 100)
         else if 11 ≤ usage.t % 24 ∧ usage.t % 24 < 17 then jsOrQ periods.midPeak (13 / 100)
         else if 17 ≤ usage.t % 24 ∧ usage.t % 24 < 19 then jsOrQ periods.onPeak (18 / 100)
         else jsOrQ periods.offPeak (8 / 100)))
    0

/-- `calculateCurrentCost(usageData)`: flat average rate of 0.15 per kWh. -/
def calculateCurrentCost (usageData : List UsageHour) : ℚ :=
  totalKwh usageData * (15 / 100)

/-- `calculatePlanCost(plan, usageData)`: dispatch on `schema.type`, with a
default base rate `schema.baseRate || 0.12` for the flat branch. -/
def calculatePlanCost (schema : PlanSchema) (usageData : List UsageHour) : ℚ :=
  let total := totalKwh usageData
  let baseRate := jsOrQ schema.baseRate (12 / 100)
  if schema.ptype = "tiered" then calculateTieredCost total schema.tiers
  else if schema.ptype = "tou" then calculateTOUCost usageData schema.periods
  else total * baseRate

/-- `getPlanType(schema)`: `schema.type || 'fixed'`. -/
def getPlanType (schema : PlanSchema) : String :=
  if schema.ptype = "" then "fixed" else schema.ptype

/-- `getPlanFeatures(schema)`. -/
def getPlanFeatures (schema : PlanSchema) : List String :=
  (if schema.ptype = "tou" then ["Time-of-Use pricing"] else []) ++
    (if schema.ptype = "tiered" then ["Tiered pricing"] else []) ++
      (if schema.greenEnergy then ["100% Green Energy"] else []) ++
        (if schema.rewards then ["Rewards program"] else [])

/-- A `planCatalog` row as consumed by the route. -/
structure Plan where
  id : String
  name : String
  provider : String
  schema : PlanSchema
deriving DecidableEq

/-- The `utilityAccount` fields the route reads. -/
structure Account where
  provider : Option String
deriving DecidableEq

/-- JavaScript truthiness of the `account.provider` string:
`null`/`undefined` and the empty string are falsy. -/
def jsTruthyStr (s : Option String) : Bool :=
  match s with
  | none => false
  | some v => v ≠ ""

/-- The `PlanComparison` record built per plan. -/
structure PlanComparison where
  planId : String
  planName : String
  provider : String
  estimatedMonthlyCost : ℚ
  estimatedAnnualCost : ℚ
  estimatedAnnualSavings : ℚ
  planType : String
  features : List String
deriving DecidableEq

/-- The per-plan body of `availablePlans.map` in `handleCompare`
(lines 147–163): the baseline is `calculateCurrentCost` when the account has
a truthy provider and the plan's own estimated cost otherwise, and
`estimatedAnnualSavings = Math.max(0, (currentCost - estimatedCost) * 4)`. -/
def toComparison (account : Account) (usageData : List UsageHour) (plan : Plan) :
    PlanComparison :=
  let estimatedCost := calculatePlanCost plan.schema usageData
  let currentCost :=
    if jsTruthyStr account.provider then calculateCurrentCost usageData else estimatedCost
  { planId := plan.id
    planName := plan.name
    provider := plan.provider
    estimatedMonthlyCost := estimatedCost / 3
    estimatedAnnualCost := estimatedCost / 3 * 12
    estimatedAnnualSavings := max 0 ((currentCost - estimatedCost) * 4)
    planType := getPlanType plan.schema
    features := getPlanFeatures plan.schema }

/-- The full comparison list, in catalog order. -/
def comparisons (account : Account) (usageData : List UsageHour) (plans : List Plan) :
    List PlanComparison :=
  plans.map (toComparison account usageData)

/-- Stable descending insertion by a rational key: models one step of
JavaScript `Array.prototype.sort` with comparator `(a, b) => key b - key a`
(the ECMAScript sort is stable, and the stable descending permutation is
unique, so insertion sort realises it). -/
def insertByDesc (key : α → ℚ) (a : α) : List α → List α
  | [] => [a]
  | b :: rest =>
    if key b ≤ key a then a :: b :: rest else b :: insertByDesc key a rest

/-- Stable descending sort by a rational key. -/
def sortByDesc (key : α → ℚ) : List α → List α
  | [] => []
  | a :: rest => insertByDesc key a (sortByDesc key rest)

/-- `comparisons.sort((a, b) => b.estimatedAnnualSavings - a.estimatedAnnualSavings)`
followed by `.slice(0, 5)`. -/
def recommendations (account : Account) (usageData : List UsageHour) (plans : List Plan) :
    List PlanComparison :=
  (sortByDesc (fun c => c.estimatedAnnualSavings) (comparisons account usageData plans)).take 5

/-- The claim's tier-consumption rule, written from the specification text:
for each tier in order `consumed = min(remaining, tier.limitKWh)` (an absent
limit meaning unbounded), `cost += consumed * tier.ratePerKWh`,
`remaining -= consumed`, stopping once `remaining <= 0`; consumption left
after the last tier is not charged. -/
def specTieredLoop : List Tier → ℚ → ℚ → ℚ
  | [], _, cost => cost
  | tier :: rest, remaining, cost =>
    let consumed :=
      match tier.limit with
      | none => remaining
      | some l => min remaining l
    if remaining - consumed ≤ 0 then cost + consumed * tier.rate
    else specTieredLoop rest (remaining - consumed) (cost + consumed * tier.rate)

/-- Entry point of the specification-side tiered rule. -/
def specTieredCost (total : ℚ) (tiers : List Tier) : ℚ :=
  specTieredLoop tiers total 0

/-- The claim's hour-to-rate table: half-open on-peak ranges `[7,11)` and
`[17,19)`, mid-peak `[11,17)`, and every hour not covered by an explicit
on-peak or mid-peak range charged at the off-peak rate. -/
def rateForHour (periods : TOUPeriods) (hour : ℕ) : ℚ :=
  if (7 ≤ hour ∧ hour < 11) ∨ (17 ≤ hour ∧ hour < 19) then jsOrQ periods.onPeak (18 / 100)
  else if 11 ≤ hour ∧ hour < 17 then jsOrQ periods.midPeak (13 / 100)
  else jsOrQ periods.offPeak (8 / 100)

/-- The claim's savings formula: annualization factor `365 / windowDays`. -/
def specAnnualSavings (currentBaselineCost estimatedCost windowDays : ℚ) : ℚ :=
  max 0 ((currentBaselineCost - estimatedCost) * (365 / windowDays))

/-- The distinct calendar dates of a series, in first-occurrence order (the
insertion order of the JavaScript `Map` keyed by date string). -/
def dayDates (usageData : List UsageHour) : List ℕ :=
  (usageData.map dayOf).dedup

/-- The number of distinct calendar days covered by a series. -/
def distinctDays (usageData : List UsageHour) : ℕ :=
  (dayDates usageData).length

/-- The summed kWh of the readings falling on calendar date `d`. -/
def dailyTotal (usageData : List UsageHour) (d : ℕ) : ℚ :=
  ((usageData.filter (fun u => dayOf u = d)).map UsageHour.kWh).sum

/-- `Array.from(dailyUsage.values())`: one per-day total per distinct date. -/
def dailyValues (usageData : List UsageHour) : List ℚ :=
  (dayDates usageData).map (dailyTotal usageData)

/-- `calculateTrend(values)`: the closed-form least-squares slope of the
values against a 0-based index.  When the denominator
`n*sumX2 - sumX*sumX` is zero (exactly when `n ≤ 1`, where the numerator is
zero too) the JavaScript division is `0 / 0 = NaN`, modelled as `none`. -/
def calculateTrend (values : List ℚ) : Option ℚ :=
  let n := values.length
  let sumX : ℚ := ((List.range n).map (fun i => (i : ℚ))).sum
  let sumY : ℚ := values.sum
  let sumXY : ℚ := (((List.range n).zip values).map (fun p => (p.1 : ℚ) * p.2)).sum
  let sumX2 : ℚ := ((List.range n).map (fun i => (i : ℚ) * (i : ℚ))).sum
  if (n : ℚ) * sumX2 - sumX * sumX = 0 then none
  else some (((n : ℚ) * sumXY - sumX * sumY) / ((n : ℚ) * sumX2 - sumX * sumX))

/-- Mean of a list of rationals, `none` for the empty list (JavaScript
`[].reduce(..., 0) / 0 = 0 / 0 = NaN`). -/
def avgQ (l : List ℚ) : Option ℚ :=
  if l.isEmpty then none else some (l.sum / l.length)

/-- `[0, 6].includes(timestamp.getDay())`. -/
def isWeekend (u : UsageHour) : Bool :=
  dayOf u % 7 == 0 || dayOf u % 7 == 6

/-- Per-hour averages `(hour, mean kWh of the readings at that hour)`, hours
in first-occurrence order. -/
def hourlyAverages (usageData : List UsageHour) : List (ℕ × ℚ) :=
  ((usageData.map hourOf).dedup).map fun h =>
    let vs := (usageData.filter (fun u => hourOf u = h)).map UsageHour.kWh
    (h, vs.sum / vs.length)

/-- The `PredictionAnalytics` summary.  Fields that would be `NaN` on the
corresponding empty grouping are `none`; `peakUsageHour`/`lowestUsageHour`
are `none` for an empty series, where the source would instead crash
indexing an empty array (unreachable behind the 168-reading gate). -/
structure PredictionAnalytics where
  averageDailyUsage : Option ℚ
  peakUsageHour : Option ℕ
  lowestUsageHour : Option ℕ
  weekdayAverage : Option ℚ
  weekendAverage : Option ℚ
  monthlyTrend : Option ℚ
deriving DecidableEq

/-- `calculateAnalytics(usageData)` from the prediction endpoint. -/
def calculateAnalytics (usageData : List UsageHour) : PredictionAnalytics :=
  let dVals := dailyValues usageData
  let sortedHours := sortByDesc Prod.snd (hourlyAverages usageData)
  { averageDailyUsage := avgQ dVals
    peakUsageHour := sortedHours.head?.map Prod.fst
    lowestUsageHour := sortedHours.getLast?.map Prod.fst
    weekdayAverage := avgQ ((usageData.filter (fun u => !isWeekend u)).map UsageHour.kWh)
    weekendAverage := avgQ ((usageData.filter isWeekend).map UsageHour.kWh)
    monthlyTrend := calculateTrend dVals }

/-- The trend label chosen inside `generatePredictions`:
`monthlyTrend > 0.1` → increasing, `monthlyTrend < -0.1` → decreasing, else
stable.  A `NaN` trend (`none`) fails both comparisons, hence stable. -/
def trendLabel (monthlyTrend : Option ℚ) : String :=
  match monthlyTrend with
  | some v =>
    if (1 / 10 : ℚ) < v then "increasing"
    else if v < -(1 / 10 : ℚ) then "decreasing"
    else "stable"
  | none => "stable"

/-- `dayOfWeekAverages.get(w)`: the mean of the daily totals of the dates
whose weekday is `w`, `undefined` (`none`) when no such date occurs. -/
def dayOfWeekAverage (usageData : List UsageHour) (w : ℕ) : Option ℚ :=
  avgQ (((dayDates usageData).filter (fun d => d % 7 = w)).map (dailyTotal usageData))

/-- One `UsagePrediction` record.  `predictedKWh`/`estimatedCost` are `none`
when the NaN of a degenerate trend propagates into them. -/
structure UsagePrediction where
  date : ℕ
  predictedKWh : Option ℚ
  confidence : ℚ
  trend : String
  estimatedCost : Option ℚ
deriving DecidableEq

/-- `generatePredictions(usageData, days, analytics)`: for `i` in
`1..days`, baseline from the day-of-week average (JavaScript `||` falling
back to the overall daily average), trend adjustment `monthlyTrend * i`,
`predictedKWh = max(0, base + adjustment)`, confidence
`max(0.5, 1 - (i / days) * 0.3)`, every numeric output rounded to two
decimals with `Math.round(x * 100) / 100`.  On an empty series the source
would crash reading the last element; the gate makes that unreachable and
the model uses day `0`. -/
def generatePredictions (usageData : List UsageHour) (days : ℕ)
    (analytics : PredictionAnalytics) : List UsagePrediction :=
  let lastDate : ℕ := (usageData.getLast?.map dayOf).getD 0
  (List.range days).map fun k =>
    let i := k + 1
    let date := lastDate + i
    let baseUsage : Option ℚ :=
      jsOrO (dayOfWeekAverage usageData (date % 7)) analytics.averageDailyUsage
    let trendAdjustment : Option ℚ := analytics.monthlyTrend.map (fun s => s * (i : ℚ))
    let predictedKWh : Option ℚ :=
      match baseUsage, trendAdjustment with
      | some b, some a => some (max 0 (b + a))
      | _, _ => none
    { date := date
      predictedKWh := predictedKWh.map jsRound2
      confidence := jsRound2 (max (1 / 2) (1 - ((i : ℚ) / (days : ℚ)) * (3 / 10)))
      trend := trendLabel analytics.monthlyTrend
      estimatedCost := predictedKWh.map (fun x => jsRound2 (x * (15 / 100))) }

/-- `handlePrediction` after loading: the insufficient-data gate
(`usageData.length < 168`, the "need at least 7 days" check) followed by the
analytics and prediction computation. -/
def handlePrediction (usageData : List UsageHour) (predictionDays : ℕ) :
    Except String (List UsagePrediction) :=
  if usageData.length < 168 then Except.error "Insufficient data"
  else Except.ok (generatePredictions usageData predictionDays (calculateAnalytics usageData))

/-- The confidence field of the prediction at 0-based position `k`. -/
def confidenceAt (predictions : List UsagePrediction) (k : ℕ) : ℚ :=
  ((predictions[k]?).map UsagePrediction.confidence).getD 0

/-- Accumulator law for the additive folds used by the cost functions. -/
lemma foldl_add_map {α : Type} (f : α → ℚ) (l : List α) (init : ℚ) :
    l.foldl (fun s u => s + f u) init = init + (l.map f).sum := by
  induction l generalizing init with
  | nil => simp
  | cons a t ih => simp [ih, add_assoc]

/-- The reduce in `calculatePlanCost` is the sum of the kWh fields. -/
lemma totalKwh_eq_sum (l : List UsageHour) :
    totalKwh l = (l.map UsageHour.kWh).sum := by
  simpa [totalKwh] using foldl_add_map UsageHour.kWh l 0

/-- The if-cascade inside the TOU loop agrees with the half-open-interval
rate table of the specification. -/
lemma tou_rate_eq (periods : TOUPeriods) (h : ℕ) :
    (if 7 ≤ h ∧ h < 11 then jsOrQ periods.onPeak (18 / 100)
     else if 11 ≤ h ∧ h < 17 then jsOrQ periods.midPeak (13 / 100)
     else if 17 ≤ h ∧ h < 19 then jsOrQ periods.onPeak (18 / 100)
     else jsOrQ periods.offPeak (8 / 100)) = rateForHour periods h := by
  unfold rateForHour
  split_ifs <;> first | rfl | omega

/-- The TOU loop accumulates exactly `kWh * rateForHour` per reading. -/
lemma calculateTOUCost_eq_sum (usageData : List UsageHour) (periods : TOUPeriods) :
    calculateTOUCost usageData periods
      = (usageData.map (fun u => u.kWh * rateForHour periods (hourOf u))).sum := by
  unfold calculateTOUCost
  simp only [tou_rate_eq]
  simpa [hourOf] using
    foldl_add_map (fun u => u.kWh * rateForHour periods (hourOf u)) usageData 0

/-- On tiers without the falsy `limit: 0` quirk, the source loop agrees with
the specification's consumption rule. -/
lemma tieredLoop_eq_spec (tiers : List Tier) (remaining cost : ℚ)
    (h : ∀ t ∈ tiers, t.limit ≠ some 0) :
    tieredLoop tiers remaining cost = specTieredLoop tiers remaining cost := by
  induction tiers generalizing remaining cost with
  | nil => rfl
  | cons tier rest ih =>
    have ht : tier.limit ≠ some 0 := h tier (List.mem_cons_self _ _)
    have hrest : ∀ t ∈ rest, t.limit ≠ some 0 := fun t htm => h t (List.mem_cons_of_mem _ htm)
    unfold tieredLoop specTieredLoop
    cases hl : tier.limit with
    | none =>
      dsimp only
      split_ifs with hr
      · rfl
      · exact ih _ _ hrest
    | some l =>
      have hlz : l ≠ 0 := fun h0 => ht (by rw [hl, h0])
      dsimp only
      rw [if_neg hlz]
      split_ifs with hr
      · rfl
      · exact ih _ _ hrest

lemma length_insertByDesc (key : α → ℚ) (a : α) (l : List α) :
    (insertByDesc key a l).length = l.length + 1 := by
  induction l with
  | nil => rfl
  | cons b t ih =>
    unfold insertByDesc
    split_ifs <;> simp [ih]

lemma length_sortByDesc (key : α → ℚ) (l : List α) :
    (sortByDesc key l).length = l.length := by
  induction l with
  | nil => rfl
  | cons a t ih =>
    unfold sortByDesc
    rw [length_insertByDesc, ih, List.length_cons]

lemma mem_insertByDesc (key : α → ℚ) (a x : α) (l : List α) :
    x ∈ insertByDesc key a l ↔ x = a ∨ x ∈ l := by
  induction l with
  | nil => simp [insertByDesc]
  | cons b t ih =>
    unfold insertByDesc
    split_ifs <;> (simp [ih]; try tauto)

lemma pairwise_insertByDesc (key : α → ℚ) (a : α) (l : List α)
    (h : l.Pairwise (fun x y => key y ≤ key x)) :
    (insertByDesc key a l).Pairwise (fun x y => key y ≤ key x) := by
  induction l with
  | nil => simp [insertByDesc]
  | cons b t ih =>
    rcases List.pairwise_cons.mp h with ⟨hb, ht⟩
    unfold insertByDesc
    split_ifs with hba
    · refine List.pairwise_cons.mpr ⟨fun y hy => ?_, h⟩
      rcases List.mem_cons.mp hy with rfl | hyt
      · exact hba
      · exact (hb y hyt).trans hba
    · refine List.pairwise_cons.mpr ⟨fun y hy => ?_, ih ht⟩
      rcases (mem_insertByDesc key a y t).mp hy with rfl | hyt
      · exact le_of_lt (lt_of_not_le hba)
      · exact hb y hyt

/-- The stable descending sort is sorted: non-increasing in the key. -/
lemma pairwise_sortByDesc (key : α → ℚ) (l : List α) :
    (sortByDesc key l).Pairwise (fun x y => key y ≤ key x) := by
  induction l with
  | nil => simp [sortByDesc]
  | cons a t ih => exact pairwise_insertByDesc key a _ ih

/-- Sorting a list whose keys are all equal returns it unchanged
(stability on an all-tied list). -/
lemma sortByDesc_of_const (key : α → ℚ) (c : ℚ) (l : List α)
    (h : ∀ x ∈ l, key x = c) : sortByDesc key l = l := by
  induction l with
  | nil => rfl
  | cons a t ih =>
    have ha : key a = c := h a (List.mem_cons_self _ _)
    have ht : ∀ x ∈ t, key x = c := fun x hx => h x (List.mem_cons_of_mem _ hx)
    unfold sortByDesc
    rw [ih ht]
    cases t with
    | nil => rfl
    | cons b t2 =>
      unfold insertByDesc
      rw [if_pos]
      rw [ha, ht b (List.mem_cons_self _ _)]

/-- Claim C1 (amended): for every Tiered plan none of whose tiers carries the
falsy `limit: 0`, `estimateCost` sums total kWh over the whole series and
consumes it tier-by-tier exactly as stated: per tier
`consumed = min(remaining, tier.limitKWh)` (an absent limit is unbounded),
`cost += consumed * tier.ratePerKWh`, `remaining -= consumed`, stopping once
`remaining ≤ 0`, and consumption left after the last bounded tier is not
charged (the specification-side recursion charges nothing on empty tiers). -/
theorem tieredCost_follows_spec_formula (schema : PlanSchema) (usageData : List UsageHour)
    (hty : schema.ptype = "tiered") (hz : ∀ t ∈ schema.tiers, t.limit ≠ some 0) :
    calculatePlanCost schema usageData = specTieredCost (totalKwh usageData) schema.tiers := by
  unfold calculatePlanCost specTieredCost calculateTieredCost
  simp only [hty, if_pos]
  exact tieredLoop_eq_spec _ _ _ hz

/-- Witness for C1 at the specification's worked example: tiers
`[{limit 100, rate 0.10}, {unbounded, rate 0.08}]` and 150 kWh give 14.00. -/
theorem tieredCost_follows_spec_formula_witness :
    calculatePlanCost ⟨"tiered", none, [⟨some 100, 1/10⟩, ⟨none, 2/25⟩], ⟨none, none, none⟩, false, false⟩
        [⟨0, 150⟩]
      = specTieredCost (totalKwh [⟨0, 150⟩]) [⟨some 100, 1/10⟩, ⟨none, 2/25⟩] ∧
    calculatePlanCost ⟨"tiered", none, [⟨some 100, 1/10⟩, ⟨none, 2/25⟩], ⟨none, none, none⟩, false, false⟩
        [⟨0, 150⟩] = 14 :=
  ⟨tieredCost_follows_spec_formula _ _ rfl (by decide), by
    norm_num [calculatePlanCost, calculateTieredCost, tieredLoop, totalKwh, jsOrQ, min_def]⟩

/-- Counterexample to Claim C1 as stated: a tier with `limitKWh = 0` is not
consumed as `min(remaining, 0) = 0`; the code treats it as unbounded, so a
single `{limit 0, rate 0.10}` tier charges 150 kWh at 0.10 (cost 15) where
the claimed rule charges nothing. -/
theorem tieredCost_spec_fails_at_zero_limit :
    calculatePlanCost ⟨"tiered", none, [⟨some 0, 1/10⟩], ⟨none, none, none⟩, false, false⟩
        [⟨0, 150⟩] = 15 ∧
    specTieredCost (totalKwh [⟨0, 150⟩]) [⟨some 0, 1/10⟩] = 0 ∧
    (15 : ℚ) ≠ 0 := by
  refine ⟨?_, ?_, by norm_num⟩
  · norm_num [calculatePlanCost, calculateTieredCost, tieredLoop, totalKwh, jsOrQ, min_def]
  · norm_num [specTieredCost, specTieredLoop, totalKwh, min_def]

/-- Claim C9: a tier whose `limit` is `0` (or absent) is unbounded — all
remaining consumption is charged at that tier's rate and the loop stops, so
later tiers never contribute; with tiers `[{limit 0, rate 0.10},
{unbounded, rate 0.08}]` and 150 kWh the cost is `150 * 0.10 = 15`, not
`150 * 0.08`. -/
theorem zero_limit_tier_unbounded :
    (∀ (r : ℚ) (rest : List Tier) (remaining cost : ℚ),
        tieredLoop (⟨some 0, r⟩ :: rest) remaining cost = cost + remaining * r ∧
        tieredLoop (⟨none, r⟩ :: rest) remaining cost = cost + remaining * r) ∧
    calculatePlanCost ⟨"tiered", none, [⟨some 0, 1/10⟩, ⟨none, 2/25⟩], ⟨none, none, none⟩, false, false⟩
        [⟨0, 150⟩] = 15 := by
  constructor
  · intro r rest remaining cost
    constructor <;> (unfold tieredLoop; simp)
  · norm_num [calculatePlanCost, calculateTieredCost, tieredLoop, totalKwh, jsOrQ, min_def]

/-- Claim C5 (amended): for every usage series and every flat plan whose
rate `r` is present and nonzero, `estimateCost` is `r` times the summed kWh,
and the empty series costs 0; a rate of `0` (or an absent rate) is falsy in
`schema.baseRate || 0.12` and silently falls back to the default 0.12. -/
theorem flatCost_rate_times_total (schema : PlanSchema) (usageData : List UsageHour) (r : ℚ)
    (h1 : schema.ptype ≠ "tiered") (h2 : schema.ptype ≠ "tou")
    (h3 : schema.baseRate = some r) (h4 : r ≠ 0) :
    calculatePlanCost schema usageData = r * totalKwh usageData ∧
    calculatePlanCost schema [] = 0 := by
  constructor
  · simp [calculatePlanCost, h1, h2, h3, jsOrQ, h4, mul_comm]
  · simp [calculatePlanCost, h1, h2, totalKwh]

/-- Witness for C5 at the specification's example: rate 0.12 and readings of
10 and 5 kWh, giving `0.12 * 15 = 1.80`. -/
theorem flatCost_rate_times_total_witness :
    calculatePlanCost ⟨"flat", some (3/25), [], ⟨none, none, none⟩, false, false⟩ [⟨0, 10⟩, ⟨1, 5⟩]
        = (3/25) * totalKwh [⟨0, 10⟩, ⟨1, 5⟩] ∧
    calculatePlanCost ⟨"flat", some (3/25), [], ⟨none, none, none⟩, false, false⟩ [] = 0 :=
  flatCost_rate_times_total _ _ _ (by decide) (by decide) rfl (by norm_num)

/-- Counterexample to Claim C5 as stated: a flat plan with rate `0` does not
cost `0 * sum`; the falsy rate falls back to the default 0.12, so 10 kWh
cost 1.2. -/
theorem flatCost_zero_rate_falls_back :
    calculatePlanCost ⟨"flat", some 0, [], ⟨none, none, none⟩, false, false⟩ [⟨0, 10⟩] = 6/5 ∧
    (6/5 : ℚ) ≠ 0 * totalKwh [⟨0, 10⟩] := by
  constructor
  · norm_num [calculatePlanCost, totalKwh, jsOrQ,
      show ("flat" : String) ≠ "tiered" from by decide,
      show ("flat" : String) ≠ "tou" from by decide]
  · norm_num [totalKwh]

/-- Claim C4: for every TimeOfUse plan, `estimateCost` iterates readings
individually and accumulates `kWh * rateForHour(timestamp.hour)`, where the
on-peak ranges `[7,11)` and `[17,19)` and mid-peak `[11,17)` are half-open
and every other hour is charged off-peak; with rates 0.08/0.13/0.18 a 2 kWh
reading at hour 8 costs 0.36 and one at hour 2 costs 0.16. -/
theorem touCost_rate_by_hour (schema : PlanSchema) (usageData : List UsageHour)
    (h : schema.ptype = "tou") :
    calculatePlanCost schema usageData
        = (usageData.map (fun u => u.kWh * rateForHour schema.periods (hourOf u))).sum ∧
    calculateTOUCost [⟨8, 2⟩] ⟨some (2/25), some (13/100), some (9/50)⟩ = 9/25 ∧
    calculateTOUCost [⟨2, 2⟩] ⟨some (2/25), some (13/100), some (9/50)⟩ = 4/25 := by
  refine ⟨?_, by norm_num [calculateTOUCost, jsOrQ], by norm_num [calculateTOUCost, jsOrQ]⟩
  have hnt : schema.ptype ≠ "tiered" := by rw [h]; decide
  simp [calculatePlanCost, hnt, h, calculateTOUCost_eq_sum]

/-- Witness for C4 on a concrete TOU plan with the example rates and the two
example readings. -/
theorem touCost_rate_by_hour_witness :
    calculatePlanCost ⟨"tou", none, [], ⟨some (2/25), some (13/100), some (9/50)⟩, false, false⟩
        [⟨8, 2⟩, ⟨2, 2⟩]
      = ([⟨8, 2⟩, ⟨2, 2⟩].map fun u =>
          u.kWh * rateForHour ⟨some (2/25), some (13/100), some (9/50)⟩ (hourOf u)).sum ∧
    calculateTOUCost [⟨8, 2⟩] ⟨some (2/25), some (13/100), some (9/50)⟩ = 9/25 ∧
    calculateTOUCost [⟨2, 2⟩] ⟨some (2/25), some (13/100), some (9/50)⟩ = 4/25 :=
  touCost_rate_by_hour _ _ rfl

/-- Claim C2 (amended): for every candidate plan the ranker computes
`estimatedAnnualSavings = max(0, (currentBaselineCost - estimatedCost) * 4)`
— the annualization factor is the hard-coded constant 4 ("assuming 3-month
period"), not `365 / windowDays`. -/
theorem annualSavings_uses_factor_four (account : Account) (usageData : List UsageHour)
    (plan : Plan) :
    (toComparison account usageData plan).estimatedAnnualSavings
      = max 0 (((if jsTruthyStr account.provider then calculateCurrentCost usageData
                 else calculatePlanCost plan.schema usageData)
                - calculatePlanCost plan.schema usageData) * 4) := rfl

/-- Counterexample to Claim C2 as stated: with a 90-day window, baseline 15
and estimated cost 10, the code reports savings `5 * 4 = 20`, while
`max(0, (15 - 10) * 365/90) = 365/18 ≈ 20.28`. -/
theorem annualSavings_not_365_over_window :
    (toComparison ⟨some "Acme"⟩ [⟨0, 100⟩]
        ⟨"p1", "Plan", "Acme", ⟨"flat", some (1/10), [], ⟨none, none, none⟩, false, false⟩⟩).estimatedAnnualSavings
      = 20 ∧
    specAnnualSavings (calculateCurrentCost [⟨0, 100⟩])
        (calculatePlanCost ⟨"flat", some (1/10), [], ⟨none, none, none⟩, false, false⟩ [⟨0, 100⟩])
        90 = 365/18 ∧
    (20 : ℚ) ≠ 365/18 := by
  refine ⟨?_, ?_, by norm_num⟩
  · norm_num [toComparison, jsTruthyStr, calculateCurrentCost, calculatePlanCost, totalKwh, jsOrQ,
      max_def, show ("flat" : String) ≠ "tiered" from by decide,
      show ("flat" : String) ≠ "tou" from by decide, show ("Acme" : String) ≠ "" from by decide]
  · norm_num [specAnnualSavings, calculateCurrentCost, calculatePlanCost, totalKwh, jsOrQ, max_def,
      show ("flat" : String) ≠ "tiered" from by decide, show ("flat" : String) ≠ "tou" from by decide]

/-- Claim C6: for every account, usage series and candidate set, the
recommendation list is non-increasing in `estimatedAnnualSavings` and its
length is `min 5 (number of candidates)` — hence at most 5, at most the
number of candidates, and all of them when there are fewer than 5. -/
theorem recommendations_sorted_and_bounded (account : Account) (usageData : List UsageHour)
    (plans : List Plan) :
    (recommendations account usageData plans).Pairwise
        (fun a b => b.estimatedAnnualSavings ≤ a.estimatedAnnualSavings) ∧
    (recommendations account usageData plans).length = min 5 plans.length ∧
    (recommendations account usageData plans).length ≤ 5 ∧
    (recommendations account usageData plans).length ≤ plans.length := by
  have hs := pairwise_sortByDesc (fun c : PlanComparison => c.estimatedAnnualSavings)
      (comparisons account usageData plans)
  have hlen : (recommendations account usageData plans).length = min 5 plans.length := by
    unfold recommendations
    rw [List.length_take, length_sortByDesc]
    simp [comparisons]
  refine ⟨hs.sublist (List.take_sublist _ _), hlen, ?_, ?_⟩
  · rw [hlen]; exact min_le_left _ _
  · rw [hlen]; exact min_le_right _ _

/-- Claim C10: when the account's current provider is absent or empty, the
baseline used for each candidate is that candidate's own estimated cost, so
every returned recommendation has savings exactly 0 and the returned list is
the catalog-order comparison list truncated to 5 (the stable sort leaves an
all-tied list unchanged). -/
theorem no_provider_zero_savings_order (account : Account) (usageData : List UsageHour)
    (plans : List Plan) (h : jsTruthyStr account.provider = false) :
    (∀ c ∈ recommendations account usageData plans, c.estimatedAnnualSavings = 0) ∧
    recommendations account usageData plans = (comparisons account usageData plans).take 5 := by
  have hz : ∀ c ∈ comparisons account usageData plans, c.estimatedAnnualSavings = 0 := by
    intro c hc
    rcases List.mem_map.mp hc with ⟨plan, hp, rfl⟩
    simp [toComparison, h]
  have hsort : sortByDesc (fun c : PlanComparison => c.estimatedAnnualSavings)
      (comparisons account usageData plans) = comparisons account usageData plans :=
    sortByDesc_of_const _ 0 _ hz
  constructor
  · intro c hc
    unfold recommendations at hc
    rw [hsort] at hc
    exact hz c (List.mem_of_mem_take hc)
  · unfold recommendations
    rw [hsort]

/-- Witness for C10: an account with no provider, a 10 kWh reading and two
flat candidate plans. -/
theorem no_provider_zero_savings_order_witness :
    (∀ c ∈ recommendations ⟨none⟩ [⟨0, 10⟩]
        [⟨"p1", "A", "X", ⟨"flat", some (1/10), [], ⟨none, none, none⟩, false, false⟩⟩,
         ⟨"p2", "B", "Y", ⟨"flat", some (1/5), [], ⟨none, none, none⟩, false, false⟩⟩],
        c.estimatedAnnualSavings = 0) ∧
    recommendations ⟨none⟩ [⟨0, 10⟩]
        [⟨"p1", "A", "X", ⟨"flat", some (1/10), [], ⟨none, none, none⟩, false, false⟩⟩,
         ⟨"p2", "B", "Y", ⟨"flat", some (1/5), [], ⟨none, none, none⟩, false, false⟩⟩]
      = (comparisons ⟨none⟩ [⟨0, 10⟩]
        [⟨"p1", "A", "X", ⟨"flat", some (1/10), [], ⟨none, none, none⟩, false, false⟩⟩,
         ⟨"p2", "B", "Y", ⟨"flat", some (1/5), [], ⟨none, none, none⟩, false, false⟩⟩]).take 5 :=
  no_provider_zero_savings_order _ _ _ rfl

/-- Claim C3 (amended): the prediction endpoint fails with the
insufficient-data error exactly when the series has fewer than 168 readings
(the "168 hourly points" proxy is the actual check); the number of distinct
calendar days is never examined. -/
theorem prediction_gate_counts_readings (usageData : List UsageHour) (predictionDays : ℕ) :
    (handlePrediction usageData predictionDays).isOk = decide (168 ≤ usageData.length) := by
  unfold handlePrediction
  split_ifs with hlt
  · simp [Except.isOk, Except.toBool, Nat.not_le.mpr hlt]
  · simp [Except.isOk, Except.toBool, Nat.not_lt.mp hlt]

set_option maxRecDepth 4000 in
/-- Counterexample to Claim C3 as stated: a series with exactly 7 distinct
calendar days (one reading per day) is rejected, and a series with a single
distinct day but 168 readings is accepted. -/
theorem prediction_gate_ignores_distinct_days :
    distinctDays ((List.range 7).map fun d => ⟨24 * d, 1⟩) = 7 ∧
    (handlePrediction ((List.range 7).map fun d => ⟨24 * d, 1⟩) 30).isOk = false ∧
    distinctDays ((List.range 168).map fun k => ⟨k % 24, 1⟩) = 1 ∧
    (handlePrediction ((List.range 168).map fun k => ⟨k % 24, 1⟩) 30).isOk = true := by
  refine ⟨by decide, by decide, ?_, ?_⟩
  · decide
  · decide

/-- Claim C7 evaluated at the failing input: with fewer than 2 distinct days
the trend regression divides zero by zero — the slope is NaN (`none`), not
0, and the NaN propagates into every `predictedKWh`; the trend label still
comes out "stable" because NaN fails both threshold comparisons. -/
theorem trend_degenerate_is_nan_stable :
    calculateTrend [] = none ∧
    calculateTrend [(5 : ℚ)] = none ∧
    calculateTrend [(5 : ℚ)] ≠ some 0 ∧
    trendLabel (calculateTrend [(5 : ℚ)]) = "stable" ∧
    (generatePredictions [⟨0, 5⟩] 1 (calculateAnalytics [⟨0, 5⟩])).map UsagePrediction.predictedKWh
      = [none] := by
  refine ⟨by norm_num [calculateTrend], by norm_num [calculateTrend, List.range_succ],
    by simp [calculateTrend, List.range_succ],
    by norm_num [calculateTrend, List.range_succ, trendLabel], ?_⟩
  norm_num [generatePredictions, calculateAnalytics, dailyValues, dayDates, dailyTotal, dayOf,
    avgQ, calculateTrend, jsOrO, dayOfWeekAverage, List.range_succ, List.dedup_cons_of_not_mem]

/-- Rounding to two decimals is monotone. -/
lemma jsRound2_mono {x y : ℚ} (h : x ≤ y) : jsRound2 x ≤ jsRound2 y := by
  unfold jsRound2
  have hf : (⌊x * 100 + 1/2⌋ : ℤ) ≤ ⌊y * 100 + 1/2⌋ := Int.floor_mono (by linarith)
  have hq : ((⌊x * 100 + 1/2⌋ : ℤ) : ℚ) ≤ ((⌊y * 100 + 1/2⌋ : ℤ) : ℚ) := by exact_mod_cast hf
  linarith

/-- 0.5 rounds to itself. -/
lemma jsRound2_half : jsRound2 (1/2) = 1/2 := by norm_num [jsRound2]

/-- The confidence stored for the prediction at 0-based position `k` is the
decay formula at `i = k + 1`, rounded to two decimals. -/
lemma confidenceAt_generate (usageData : List UsageHour) (analytics : PredictionAnalytics)
    (days k : ℕ) (hk : k < days) :
    confidenceAt (generatePredictions usageData days analytics) k
      = jsRound2 (max (1 / 2) (1 - (((k + 1 : ℕ) : ℚ) / (days : ℚ)) * (3 / 10))) := by
  unfold confidenceAt generatePredictions
  rw [List.getElem?_map, List.getElem?_range hk]
  rfl

/-- Claim C8 (amended): the confidence of the i-th prediction equals
`round(100 * max(0.5, 1 - (i / horizonDays) * 0.3)) / 100` — the claimed
decay formula rounded to two decimals — and consequently the sequence is
monotonically non-increasing across the horizon and never below 0.5. -/
theorem confidence_rounded_decay (usageData : List UsageHour)
    (analytics : PredictionAnalytics) (days i j : ℕ)
    (hi : 1 ≤ i) (hij : i ≤ j) (hj : j ≤ days) :
    confidenceAt (generatePredictions usageData days analytics) (i - 1)
        = jsRound2 (max (1 / 2) (1 - ((i : ℚ) / (days : ℚ)) * (3 / 10))) ∧
    confidenceAt (generatePredictions usageData days analytics) (j - 1)
        ≤ confidenceAt (generatePredictions usageData days analytics) (i - 1) ∧
    (1 / 2 : ℚ) ≤ confidenceAt (generatePredictions usageData days analytics) (i - 1) := by
  have hi1 : i - 1 < days := by omega
  have hj1 : j - 1 < days := by omega
  have hfi := confidenceAt_generate usageData analytics days (i - 1) hi1
  have hfj := confidenceAt_generate usageData analytics days (j - 1) hj1
  rw [show i - 1 + 1 = i from by omega] at hfi
  rw [show j - 1 + 1 = j from by omega] at hfj
  have hcast : (i : ℚ) ≤ (j : ℚ) := by exact_mod_cast hij
  have hinner : max (1/2 : ℚ) (1 - ((j : ℚ) / (days : ℚ)) * (3 / 10))
      ≤ max (1/2 : ℚ) (1 - ((i : ℚ) / (days : ℚ)) * (3 / 10)) := by
    gcongr
  refine ⟨hfi, ?_, ?_⟩
  · rw [hfi, hfj]
    exact jsRound2_mono hinner
  · rw [hfi]
    calc (1/2 : ℚ) = jsRound2 (1/2) := jsRound2_half.symm
    _ ≤ _ := jsRound2_mono (le_max_left _ _)

/-- Witness for C8 at days = 7, i = 1, j = 2 on a one-reading series. -/
theorem confidence_rounded_decay_witness :
    confidenceAt (generatePredictions [⟨0, 5⟩] 7
        ⟨some 5, some 0, some 0, some 5, some 5, some 0⟩) (1 - 1)
        = jsRound2 (max (1 / 2) (1 - (((1 : ℕ) : ℚ) / ((7 : ℕ) : ℚ)) * (3 / 10))) ∧
    confidenceAt (generatePredictions [⟨0, 5⟩] 7
        ⟨some 5, some 0, some 0, some 5, some 5, some 0⟩) (2 - 1)
        ≤ confidenceAt (generatePredictions [⟨0, 5⟩] 7
        ⟨some 5, some 0, some 0, some 5, some 5, some 0⟩) (1 - 1) ∧
    (1 / 2 : ℚ) ≤ confidenceAt (generatePredictions [⟨0, 5⟩] 7
        ⟨some 5, some 0, some 0, some 5, some 5, some 0⟩) (1 - 1) :=
  confidence_rounded_decay [⟨0, 5⟩] ⟨some 5, some 0, some 0, some 5, some 5, some 0⟩ 7 1 2
    (by norm_num) (by norm_num) (by norm_num)

/-- Counterexample to Claim C8 as stated: at horizon 7 the first prediction's
stored confidence is 0.96, while the unrounded formula gives 67/70 ≈ 0.9571. -/
theorem confidence_not_exact_formula :
    confidenceAt (generatePredictions [⟨0, 5⟩] 7
        ⟨some 5, some 0, some 0, some 5, some 5, some 0⟩) 0 = 24/25 ∧
    max (1/2 : ℚ) (1 - ((1 : ℚ) / 7) * (3 / 10)) = 67/70 ∧
    (24/25 : ℚ) ≠ 67/70 := by
  refine ⟨?_, by norm_num, by norm_num⟩
  rw [confidenceAt_generate _ _ _ _ (by norm_num)]
  norm_num [jsRound2]

end BillSnipe
